import Mathlib

/-!
A verification development for the Roblox limited-checker bot (`src/main.py`).

Modelling conventions:
* Python `float` values (RAP, community value, gap, scores) are embedded as
  exact rationals `ℚ`; Python `int` becomes `Int` (or `ℕ` where the value is a
  count that every call site passes non-negatively, e.g. `top_n`).
* Heterogeneous JSON cell values from the bulk feed are embedded as the
  inductive `JVal`; `isinstance(x, (int, float))` and Python's cross-type
  numeric `==` are embedded as `JVal.asNum?` / `JVal.eqInt` (a Python `bool`
  is a subtype of `int`, so it counts as numeric with value 0 or 1).
* `list.sort(key=k, reverse=True)` is a stable descending sort; it is embedded
  as `List.insertionSort` with the relation `k b ≤ k a`, which is stable and
  sorts descending, so it computes the same list.
* Network effects are embedded by explicit state passing: the module-level
  Rolimons cache is a parameter-and-result, and the HTTP response is an
  `Except Unit` argument (`Except.error` = transport error or unparseable
  payload, i.e. an exception raised inside the fetch).
-/

/-- A JSON cell value from the Rolimons bulk feed item array. -/
inductive JVal where
  | jint (n : Int)
  | jnum (q : ℚ)
  | jbool (b : Bool)
  | jstr (s : String)
  | jnull
deriving DecidableEq

/-- Embeds Python `isinstance(x, (int, float))`, returning the numeric value:
`bool` is a subtype of `int` in Python, so `True`/`False` count as 1/0. -/
def JVal.asNum? : JVal → Option ℚ
  | .jint n => some (n : ℚ)
  | .jnum q => some q
  | .jbool b => some (if b then 1 else 0)
  | _ => none

/-- Embeds Python `isinstance(x, int)` (with `bool ⊂ int`), returning the value. -/
def JVal.asInt? : JVal → Option Int
  | .jint n => some n
  | .jbool b => some (if b then 1 else 0)
  | _ => none

/-- Embeds Python `x == n` for an integer literal `n`: numeric values compare
by value across int/float/bool; non-numeric values are never equal to `n`. -/
def JVal.eqInt (v : JVal) (n : Int) : Bool :=
  match v.asNum? with
  | some q => q = (n : ℚ)
  | none => false

/-- One normalized Rolimons item record, as built by `fetch_rolimons_raw`
(the dict stored in `lookup[aid]`). -/
structure RolItem where
  id : Int
  name : String
  rap : ℚ
  value : ℚ
  limited_type : String
  demand : Int
  trend : Int
  projected : Bool
  hyped : Bool
  rare : Bool
deriving DecidableEq

/-- One raw row of the bulk feed: the fixed-position array
`[name, acronym, rap, value, default_value, demand, trend, projected, hyped, rare]`
(`name` is copied verbatim into the record, so it is kept as a `String`). -/
structure RawRow where
  name : String
  acronym : JVal
  rap : JVal
  value : JVal
  default_value : JVal
  demand : JVal
  trend : JVal
  projected : JVal
  hyped : JVal
  rare : JVal
deriving DecidableEq

/-- The per-row normalization done in the body of the `for` loop of
`fetch_rolimons_raw` (src/main.py lines 76-91). -/
def parse_row (aid : Int) (info : RawRow) : RolItem :=
  { id := aid
    name := info.name
    rap := match info.rap.asNum? with
           | some q => if 0 < q then q else 0
           | none => 0
    value := match info.value.asNum? with
             | some q => if 0 < q then q else 0
             | none => 0
    limited_type := if info.default_value.eqInt (-1) then "U 🔢" else "L ⏱️"
    demand := match info.demand.asInt? with
              | some n => n
              | none => 0
    trend := match info.trend.asInt? with
             | some n => n
             | none => 0
    projected := info.projected.eqInt 1
    hyped := info.hyped.eqInt 1
    rare := info.rare.eqInt 1 }

/-- `compute_gap` (src/main.py lines 287-293). -/
def compute_gap (rap value : ℚ) : ℚ :=
  if value ≤ 0 then 0
  else if rap ≤ 0 then 0
  else (value - rap) / value * 100

/-- `score_item` (src/main.py lines 296-306); the `gap` field that the callers
store on the dict before calling it is passed explicitly. -/
def score_item (gap : ℚ) (item : RolItem) : ℚ :=
  let d_score : ℚ := if 0 < item.demand then ((item.demand : ℚ) / 5) * 20 else 0
  let t_score : ℚ := if 0 < item.trend then ((item.trend : ℚ) / 5) * 10 else 0
  let bonus0 : ℚ := 0
  let bonus1 : ℚ := if item.hyped then bonus0 + 5 else bonus0
  let bonus2 : ℚ := if item.rare then bonus1 + 5 else bonus1
  let bonus3 : ℚ := if item.projected then bonus2 - 5 else bonus2
  gap + d_score + t_score + bonus3

/-- `growth_score` (src/main.py lines 309-355); `gap` passed explicitly as for
`score_item`. -/
def growth_score (gap : ℚ) (item : RolItem) : ℚ :=
  let s0 : ℚ := 0
  let s1 : ℚ :=
    if item.trend = 3 then s0 + 40
    else if item.trend = 2 then s0 + 15
    else if item.trend = 1 then s0 - 20
    else s0
  let s2 : ℚ :=
    if item.demand = 5 then s1 + 30
    else if item.demand = 4 then s1 + 20
    else if item.demand = 3 then s1 + 10
    else if item.demand = 2 then s1 - 10
    else if item.demand = 1 then s1 - 25
    else s1
  let s3 : ℚ := if item.rare then s2 + 25 else s2
  let s4 : ℚ := if item.hyped then s3 + 20 else s3
  let s5 : ℚ := if item.projected then s4 - 10 else s4
  let s6 : ℚ :=
    if 20 ≤ gap then s5 + 15
    else if 10 ≤ gap then s5 + 8
    else s5
  let s7 : ℚ := if (item.limited_type).startsWith ("U") then s6 + 10 else s6
  s7

/-- An item after `run_scan` has stored `item["gap"]` and `item["score"]`. -/
structure ScoredItem where
  item : RolItem
  gap : ℚ
  score : ℚ
deriving DecidableEq

/-- The sort key selected by `sort_key = "score" if mode == "score" else "gap"`
followed by `x[sort_key]` (src/main.py lines 446-447). -/
def sortKey (mode : String) (s : ScoredItem) : ℚ :=
  if mode = "score" then s.score else s.gap

/-- The `candidates` list comprehension of `run_scan` (src/main.py lines 428-437). -/
def scan_candidates (all_items : List RolItem) (max_price min_rap : ℚ) : List RolItem :=
  all_items.filter fun i =>
    (decide (0 < i.rap) && decide (i.rap ≤ max_price) && decide (min_rap ≤ i.rap))
    || (decide (i.rap = 0) && decide (0 < i.value) && decide (i.value ≤ max_price))

/-- The `results` accumulation loop of `run_scan` (src/main.py lines 438-445):
items whose gap falls below `min_gap` are skipped, the rest get `gap` and
`score` fields. -/
def scan_results (candidates : List RolItem) (min_gap : ℚ) : List ScoredItem :=
  candidates.filterMap fun item =>
    let gap := compute_gap item.rap item.value
    if gap < min_gap then none
    else some { item := item, gap := gap, score := score_item gap item }

/-- The in-place `results.sort(key=lambda x: x[sort_key], reverse=True)`
(src/main.py line 447): a stable descending sort by the selected key. -/
def scan_sorted (results : List ScoredItem) (mode : String) : List ScoredItem :=
  results.insertionSort fun a b => sortKey mode b ≤ sortKey mode a

/-- `run_scan` (src/main.py lines 425-448) minus the I/O: the fetched item list
is a parameter. Returns `(results[:min(top_n, 25)], len(candidates), len(results))`.
`top_n` is a requested result count, non-negative at every call site, so it is
embedded as `ℕ` and the slice `results[:n]` as `List.take`. -/
def run_scan (all_items : List RolItem) (max_price min_rap min_gap : ℚ)
    (top_n : ℕ) (mode : String) : List ScoredItem × ℕ × ℕ :=
  let candidates := scan_candidates all_items max_price min_rap
  let results := scan_results candidates min_gap
  let sorted := scan_sorted results mode
  (sorted.take (min top_n 25), candidates.length, results.length)

/-- The Rolimons lookup map: a `Dict[int, Dict]` in insertion order. -/
abbrev RolMap := List (Int × RolItem)

/-- `ROLIMONS_CACHE_TTL = 300` (src/main.py line 60). -/
def ROLIMONS_CACHE_TTL : ℚ := 300

/-- The refresh path of `fetch_rolimons_raw` (src/main.py lines 69-96): the HTTP
GET plus JSON parse either raises (`Except.error`, leaving the cache untouched,
since the assignment on line 95 is never reached) or yields the raw rows, which
are normalized row by row and stored in the cache. -/
def rolimons_refresh (cache : Option (ℚ × RolMap)) (now : ℚ)
    (resp : Except Unit (List (Int × RawRow))) :
    Option (ℚ × RolMap) × Except Unit RolMap :=
  match resp with
  | .error e => (cache, .error e)
  | .ok rows =>
    let lookup : RolMap := rows.map fun p => (p.1, parse_row p.1 p.2)
    (some (now, lookup), .ok lookup)

/-- `fetch_rolimons_raw` (src/main.py lines 63-96) with the module-level cache
passed and returned explicitly and the network modelled by `resp`. A non-`None`
cache tuple is always truthy in Python, so the guard is just the TTL check. -/
def fetch_rolimons_raw (cache : Option (ℚ × RolMap)) (now : ℚ)
    (resp : Except Unit (List (Int × RawRow))) :
    Option (ℚ × RolMap) × Except Unit RolMap :=
  match cache with
  | some (t, m) =>
    if now - t < ROLIMONS_CACHE_TTL then (some (t, m), .ok m)
    else rolimons_refresh (some (t, m)) now resp
  | none => rolimons_refresh none now resp

/-- `run_scan` including its fetch step (`fetch_rolimons_list` =
`list(lookup.values())`): an exception from the fetch propagates to the caller
with no partial result, as `run_scan` has no exception handler. -/
def run_scan_io (cache : Option (ℚ × RolMap)) (now : ℚ)
    (resp : Except Unit (List (Int × RawRow)))
    (max_price min_rap min_gap : ℚ) (top_n : ℕ) (mode : String) :
    Option (ℚ × RolMap) × Except Unit (List ScoredItem × ℕ × ℕ) :=
  match fetch_rolimons_raw cache now resp with
  | (cache2, .error e) => (cache2, .error e)
  | (cache2, .ok m) =>
    (cache2, .ok (run_scan (m.map Prod.snd) max_price min_rap min_gap top_n mode))

/-- Modelled from the spec: `riskTier` (spec §4.4) is described in the spec but
has no counterpart anywhere in src/main.py; the four-bucket table is rendered
directly. Buckets: gap < −20 High; −20 ≤ gap < 0 Medium; 0 ≤ gap < 25 Low;
gap ≥ 25 Medium. -/
inductive RiskTier where
  | Low
  | Medium
  | High
deriving DecidableEq

/-- Modelled from the spec: the `riskTier(gapPercent)` function of spec §4.4
(absent from src/main.py). -/
def riskTier (gap : ℚ) : RiskTier :=
  if gap < -20 then .High
  else if gap < 0 then .Medium
  else if gap < 25 then .Low
  else .Medium

/-! ### Concrete inputs reused by the counterexamples and witnesses -/

/-- A baseline item with no demand/trend signal and no flags. -/
def baseItem (i : Int) (rap value : ℚ) : RolItem :=
  { id := i, name := "x", rap := rap, value := value, limited_type := "L ⏱️",
    demand := 0, trend := 0, projected := false, hyped := false, rare := false }

/-- The §8 scenario item: rap 100, value 150, demand 4, trend 3, no flags. -/
def demoItem : RolItem :=
  { baseItem 1 100 150 with demand := 4, trend := 3 }

/-! ### C1 -/

/-- C1 (counterexample): at rap = 0 and reference value 150 > 0, the spec
formula gives (150 − 0) / 150 × 100 = 100, but `compute_gap` returns 0, so the
claim that the formula holds whenever the reference is positive is false. -/
theorem compute_gap_zero_rap_counterexample :
    (0 : ℚ) < 150 ∧ compute_gap 0 150 = 0 ∧ ((150 : ℚ) - 0) / 150 * 100 = 100 ∧
      compute_gap 0 150 ≠ ((150 : ℚ) - 0) / 150 * 100 := by
  refine ⟨by norm_num, by norm_num [compute_gap], by norm_num, ?_⟩
  norm_num [compute_gap]

/-- C1 (amended): `compute_gap` equals (value − rap) / value × 100 whenever
both the reference value and the RAP are strictly positive, and equals 0
whenever the reference is ≤ 0 or the RAP is ≤ 0 (so RAP = 0 with a positive
reference yields 0, not the formula value). -/
theorem compute_gap_amended (rap value : ℚ) :
    (0 < value → 0 < rap → compute_gap rap value = (value - rap) / value * 100) ∧
    (value ≤ 0 ∨ rap ≤ 0 → compute_gap rap value = 0) := by
  constructor
  · intro hv hr
    rw [compute_gap, if_neg (not_le.mpr hv), if_neg (not_le.mpr hr)]
  · intro h
    rcases h with h | h
    · rw [compute_gap, if_pos h]
    · rw [compute_gap]
      split_ifs <;> rfl

/-- C1 (witness for `compute_gap_amended`). -/
theorem compute_gap_amended_witness :
    compute_gap 100 150 = ((150 : ℚ) - 100) / 150 * 100 ∧ compute_gap (-5) 150 = 0 :=
  ⟨(compute_gap_amended 100 150).1 (by norm_num) (by norm_num),
   (compute_gap_amended (-5) 150).2 (Or.inr (by norm_num))⟩

/-! ### C4 -/

/-- C4: `score_item` is gapPercent + demandComponent + trendComponent +
signalBonus with the components exactly as specified, and on the §8 scenario
input (rap 100, value 150, demand 4, trend 3) the gap is 100/3 and the
composite score 166/3, whose two-decimal renderings are 33.33 and 55.33. -/
theorem score_item_spec :
    (∀ (gap : ℚ) (item : RolItem),
      score_item gap item =
        gap + (if 0 < item.demand then ((item.demand : ℚ) / 5) * 20 else 0)
            + (if 0 < item.trend then ((item.trend : ℚ) / 5) * 10 else 0)
            + ((if item.hyped then (5 : ℚ) else 0) + (if item.rare then (5 : ℚ) else 0)
               + (if item.projected then (-5 : ℚ) else 0))) ∧
    compute_gap demoItem.rap demoItem.value = 100 / 3 ∧
    score_item (compute_gap demoItem.rap demoItem.value) demoItem = 166 / 3 ∧
    |(100 / 3 : ℚ) - 33.33| < 0.005 ∧ |(166 / 3 : ℚ) - 55.33| < 0.005 := by
  refine ⟨?_, ?_, ?_, ?_, ?_⟩
  · intro gap item
    simp only [score_item]
    split_ifs <;> ring
  · norm_num [compute_gap, demoItem, baseItem]
  · norm_num [compute_gap, score_item, demoItem, baseItem]
  · rw [abs_of_pos (by norm_num)]
    norm_num
  · rw [abs_of_pos (by norm_num)]
    norm_num

/-! ### C6 (the `riskTier` function exists only in the spec, §4.4) -/

/-- C6: the spec-modelled `riskTier` is a pure total function of the gap
matching the four-bucket table, boundary-inclusive: gap < −20 High,
−20 ≤ gap < 0 Medium, 0 ≤ gap < 25 Low, 25 ≤ gap Medium. -/
theorem riskTier_table (gap : ℚ) :
    (gap < -20 → riskTier gap = RiskTier.High) ∧
    (-20 ≤ gap → gap < 0 → riskTier gap = RiskTier.Medium) ∧
    (0 ≤ gap → gap < 25 → riskTier gap = RiskTier.Low) ∧
    (25 ≤ gap → riskTier gap = RiskTier.Medium) := by
  refine ⟨?_, ?_, ?_, ?_⟩
  · intro h
    rw [riskTier, if_pos h]
  · intro h1 h2
    rw [riskTier, if_neg (not_lt.mpr h1), if_pos h2]
  · intro h1 h2
    rw [riskTier, if_neg (not_lt.mpr (by linarith)), if_neg (not_lt.mpr h1), if_pos h2]
  · intro h
    rw [riskTier, if_neg (not_lt.mpr (by linarith)), if_neg (not_lt.mpr (by linarith)),
      if_neg (not_lt.mpr h)]

/-- C6 (witness for `riskTier_table`, checking every bucket at its boundary). -/
theorem riskTier_table_witness :
    riskTier (-30) = RiskTier.High ∧ riskTier (-20) = RiskTier.Medium ∧
      riskTier 0 = RiskTier.Low ∧ riskTier 25 = RiskTier.Medium :=
  ⟨(riskTier_table (-30)).1 (by norm_num),
   (riskTier_table (-20)).2.1 (by norm_num) (by norm_num),
   (riskTier_table 0).2.2.1 (by norm_num) (by norm_num),
   (riskTier_table 25).2.2.2 (by norm_num)⟩

/-! ### C7 -/

/-- C7: `growth_score` is exactly the sum of the specified contributions
(trend, demand, rare, hype, projected, gap bucket, Limited-U kind) and depends
on no other input field. -/
theorem growth_score_spec (gap : ℚ) (item : RolItem) :
    growth_score gap item =
      (if item.trend = 3 then (40 : ℚ) else if item.trend = 2 then 15
        else if item.trend = 1 then -20 else 0)
      + (if item.demand = 5 then (30 : ℚ) else if item.demand = 4 then 20
          else if item.demand = 3 then 10 else if item.demand = 2 then -10
          else if item.demand = 1 then -25 else 0)
      + (if item.rare then (25 : ℚ) else 0)
      + (if item.hyped then (20 : ℚ) else 0)
      + (if item.projected then (-10 : ℚ) else 0)
      + (if 20 ≤ gap then (15 : ℚ) else if 10 ≤ gap then 8 else 0)
      + (if (item.limited_type).startsWith ("U") then (10 : ℚ) else 0) := by
  have htrend : ∀ s : ℚ,
      (if item.trend = 3 then s + 40 else if item.trend = 2 then s + 15
        else if item.trend = 1 then s - 20 else s) =
      s + (if item.trend = 3 then (40 : ℚ) else if item.trend = 2 then 15
            else if item.trend = 1 then -20 else 0) := by
    intro s; split_ifs <;> ring
  have hdemand : ∀ s : ℚ,
      (if item.demand = 5 then s + 30 else if item.demand = 4 then s + 20
        else if item.demand = 3 then s + 10 else if item.demand = 2 then s - 10
        else if item.demand = 1 then s - 25 else s) =
      s + (if item.demand = 5 then (30 : ℚ) else if item.demand = 4 then 20
            else if item.demand = 3 then 10 else if item.demand = 2 then -10
            else if item.demand = 1 then -25 else 0) := by
    intro s; split_ifs <;> ring
  have hrare : ∀ s : ℚ, (if item.rare then s + 25 else s) =
      s + (if item.rare then (25 : ℚ) else 0) := by
    intro s; split_ifs <;> ring
  have hhyped : ∀ s : ℚ, (if item.hyped then s + 20 else s) =
      s + (if item.hyped then (20 : ℚ) else 0) := by
    intro s; split_ifs <;> ring
  have hproj : ∀ s : ℚ, (if item.projected then s - 10 else s) =
      s + (if item.projected then (-10 : ℚ) else 0) := by
    intro s; split_ifs <;> ring
  have hgap : ∀ s : ℚ,
      (if 20 ≤ gap then s + 15 else if 10 ≤ gap then s + 8 else s) =
      s + (if 20 ≤ gap then (15 : ℚ) else if 10 ≤ gap then 8 else 0) := by
    intro s; split_ifs <;> ring
  have hu : ∀ s : ℚ, (if (item.limited_type).startsWith ("U") then s + 10 else s) =
      s + (if (item.limited_type).startsWith ("U") then (10 : ℚ) else 0) := by
    intro s; split_ifs <;> ring
  simp only [growth_score, htrend, hdemand, hrare, hhyped, hproj, hgap, hu]
  ring

/-! ### Sortedness of the scan output -/

/-- The in-place sort of `run_scan` yields a list that is non-increasing in the
selected sort key. -/
theorem scan_sorted_pairwise (results : List ScoredItem) (mode : String) :
    List.Pairwise (fun a b => sortKey mode b ≤ sortKey mode a) (scan_sorted results mode) := by
  haveI : IsTotal ScoredItem (fun a b => sortKey mode b ≤ sortKey mode a) :=
    ⟨fun a b => le_total _ _⟩
  haveI : IsTrans ScoredItem (fun a b => sortKey mode b ≤ sortKey mode a) :=
    ⟨fun a b c hab hbc => le_trans hbc hab⟩
  exact List.sorted_insertionSort _ _

/-! ### C2 -/

/-- C2 (counterexample): in `momentum` mode the scan output is ordered
[gap 10, gap −5], but the claimed momentum key −|gap + 5| of the second item
(0) exceeds that of the first (−15), so the output is not sorted by the
momentum key — the code only distinguishes `score` from everything else. -/
theorem ranking_momentum_counterexample :
    ((run_scan [baseItem 1 90 100, baseItem 2 105 100] 200 0 (-100) 10 "momentum").1.map
        fun s => s.gap) = [10, -5] ∧
    ¬ List.Pairwise (fun a b : ScoredItem => -|b.gap + 5| ≤ -|a.gap + 5|)
        (run_scan [baseItem 1 90 100, baseItem 2 105 100] 200 0 (-100) 10 "momentum").1 := by
  have h : (run_scan [baseItem 1 90 100, baseItem 2 105 100] 200 0 (-100) 10 "momentum").1 =
      [{ item := baseItem 1 90 100, gap := 10, score := 10 },
       { item := baseItem 2 105 100, gap := -5, score := -5 }] := by
    norm_num [run_scan, scan_candidates, scan_results, scan_sorted, compute_gap, score_item,
      sortKey, baseItem, List.insertionSort, List.orderedInsert, List.filterMap_cons]
  constructor
  · rw [h]
    rfl
  · rw [h]
    intro hp
    have hab := List.rel_of_pairwise_cons hp (List.mem_singleton.mpr rfl)
    simp only at hab
    rw [show ((-5 : ℚ) + 5) = 0 by norm_num, show ((10 : ℚ) + 5) = 15 by norm_num,
      abs_zero, abs_of_pos (by norm_num : (0 : ℚ) < 15)] at hab
    norm_num at hab

/-- C2 (amended): `score` mode sorts by compositeScore descending, and every
other mode string — `gap`, but also `momentum` and `mixed`, whose special keys
are not implemented — sorts by gapPercent descending. -/
theorem ranking_mode_amended (items : List RolItem) (mp mr mg : ℚ) (tn : ℕ) (mode : String) :
    (mode = "score" →
      List.Pairwise (fun a b : ScoredItem => b.score ≤ a.score)
        (run_scan items mp mr mg tn mode).1) ∧
    (mode ≠ "score" →
      List.Pairwise (fun a b : ScoredItem => b.gap ≤ a.gap)
        (run_scan items mp mr mg tn mode).1) := by
  have hp := scan_sorted_pairwise (scan_results (scan_candidates items mp mr) mg) mode
  have hout : (run_scan items mp mr mg tn mode).1 =
      (scan_sorted (scan_results (scan_candidates items mp mr) mg) mode).take (min tn 25) := rfl
  constructor
  · intro hm
    rw [hout]
    exact (hp.sublist (List.take_sublist _ _)).imp fun hab => by
      simpa [sortKey, hm] using hab
  · intro hm
    rw [hout]
    exact (hp.sublist (List.take_sublist _ _)).imp fun hab => by
      simpa [sortKey, hm] using hab

/-- C2 (witness for `ranking_mode_amended`). -/
theorem ranking_mode_amended_witness :
    List.Pairwise (fun a b : ScoredItem => b.gap ≤ a.gap)
      (run_scan [baseItem 1 90 100, baseItem 2 105 100] 200 0 (-100) 10 "momentum").1 ∧
    List.Pairwise (fun a b : ScoredItem => b.score ≤ a.score)
      (run_scan [baseItem 1 90 100, baseItem 2 105 100] 200 0 (-100) 10 "score").1 :=
  ⟨(ranking_mode_amended [baseItem 1 90 100, baseItem 2 105 100] 200 0 (-100) 10 "momentum").2
      (by decide),
   (ranking_mode_amended [baseItem 1 90 100, baseItem 2 105 100] 200 0 (-100) 10 "score").1 rfl⟩

/-! ### C3 -/

/-- C3 (counterexample): two items tied at compositeScore 50.0, appearing in
the feed with id 7 before id 3, come out of the scan as [7, 3] — the stable
sort keeps feed order, it does not break ties by ascending id. -/
theorem tiebreak_counterexample :
    ((run_scan [baseItem 7 50 100, baseItem 3 50 100] 200 0 0 10 "score").1.map
        fun s => s.score) = [50, 50] ∧
    ((run_scan [baseItem 7 50 100, baseItem 3 50 100] 200 0 0 10 "score").1.map
        fun s => s.item.id) = [7, 3] ∧
    ([7, 3] : List Int) ≠ [3, 7] := by
  refine ⟨?_, ?_, by decide⟩ <;>
    norm_num [run_scan, scan_candidates, scan_results, scan_sorted, compute_gap, score_item,
      sortKey, baseItem, List.insertionSort, List.orderedInsert, List.filterMap_cons]

/-- C3 (amended): in every ranking mode the sort is stable, so items whose
sort keys are exactly equal keep their relative order from the fetched feed;
in the id-7/id-3 tie scenario of `tiebreak_counterexample`, feed order [7, 3]
is what the scan returns. -/
theorem tiebreak_amended (results : List ScoredItem) (mode : String) (a b : ScoredItem)
    (h : sortKey mode a = sortKey mode b) (hsub : List.Sublist [a, b] results) :
    List.Sublist [a, b] (scan_sorted results mode) :=
  List.pair_sublist_insertionSort h.symm.le hsub

/-- C3 (witness for `tiebreak_amended`). -/
theorem tiebreak_amended_witness :
    List.Sublist
      [{ item := baseItem 7 50 100, gap := 50, score := 50 },
       { item := baseItem 3 50 100, gap := 50, score := 50 }]
      (scan_sorted
        [{ item := baseItem 7 50 100, gap := 50, score := 50 },
         { item := baseItem 3 50 100, gap := 50, score := 50 }] "score") :=
  tiebreak_amended _ _ _ _ rfl (List.Sublist.refl _)

/-! ### C5 -/

/-- C5: the scan returns at most min(topN, 25) items, and they are
non-increasing in the selected sort key (compositeScore for `score` mode,
gapPercent for every other mode). -/
theorem truncation_law (items : List RolItem) (mp mr mg : ℚ) (tn : ℕ) (mode : String) :
    (run_scan items mp mr mg tn mode).1.length ≤ min tn 25 ∧
    List.Pairwise (fun a b => sortKey mode b ≤ sortKey mode a)
      (run_scan items mp mr mg tn mode).1 :=
  ⟨List.length_take_le _ _,
   (scan_sorted_pairwise _ _).sublist (List.take_sublist _ _)⟩

/-! ### C8 -/

/-- A feed row whose demand cell is the integer −3. -/
def negDemandRow : RawRow :=
  { name := "x", acronym := .jnull, rap := .jint 100, value := .jint 150,
    default_value := .jint 0, demand := .jint (-3), trend := .jint 2,
    projected := .jint 0, hyped := .jint 0, rare := .jint 0 }

/-- C8 (counterexample): a source row with integer demand −3 produces a record
with demandTier = −3 < 0 — the fetcher does not clamp the tier fields. -/
theorem normalization_counterexample :
    (parse_row 1 negDemandRow).demand = -3 ∧ (parse_row 1 negDemandRow).demand < 0 := by
  constructor <;> norm_num [parse_row, negDemandRow, JVal.asInt?]

/-- C8 (amended): the fetcher clamps only rap and value — any source cell that
is not a number, or is a number ≤ 0, is normalized to 0, so rap and value are
always ≥ 0 — while demandTier and trendTier are copied verbatim whenever the
source cell is an integer (non-integers become 0), so a negative integer tier
propagates into the record. -/
theorem normalization_amended (aid : Int) (row : RawRow) :
    0 ≤ (parse_row aid row).rap ∧ 0 ≤ (parse_row aid row).value ∧
    (row.rap.asNum? = none → (parse_row aid row).rap = 0) ∧
    (∀ q, row.rap.asNum? = some q → q ≤ 0 → (parse_row aid row).rap = 0) ∧
    (row.value.asNum? = none → (parse_row aid row).value = 0) ∧
    (∀ q, row.value.asNum? = some q → q ≤ 0 → (parse_row aid row).value = 0) ∧
    (∀ n, row.demand.asInt? = some n → (parse_row aid row).demand = n) ∧
    (∀ n, row.trend.asInt? = some n → (parse_row aid row).trend = n) := by
  refine ⟨?_, ?_, ?_, ?_, ?_, ?_, ?_, ?_⟩
  · rcases h : row.rap.asNum? with _ | q
    · simp [parse_row, h]
    · simp only [parse_row, h]
      split_ifs with hq
      · exact le_of_lt hq
      · exact le_refl 0
  · rcases h : row.value.asNum? with _ | q
    · simp [parse_row, h]
    · simp only [parse_row, h]
      split_ifs with hq
      · exact le_of_lt hq
      · exact le_refl 0
  · intro h
    simp [parse_row, h]
  · intro q h hq
    simp only [parse_row, h]
    rw [if_neg (not_lt.mpr hq)]
  · intro h
    simp [parse_row, h]
  · intro q h hq
    simp only [parse_row, h]
    rw [if_neg (not_lt.mpr hq)]
  · intro n h
    simp [parse_row, h]
  · intro n h
    simp [parse_row, h]

/-- C8 (witness for `normalization_amended`). -/
theorem normalization_amended_witness :
    0 ≤ (parse_row 1 negDemandRow).rap ∧ (parse_row 1 negDemandRow).demand = -3 :=
  ⟨(normalization_amended 1 negDemandRow).1,
   (normalization_amended 1 negDemandRow).2.2.2.2.2.2.1 (-3) rfl⟩

/-! ### C9 -/

/-- C9: when the cache cannot serve the request (empty or expired) and the
bulk fetch raises, the failure propagates out of the scan with no partial
result and the cache is left exactly as it was — and a subsequent call with a
working response fetches immediately and succeeds (no negative caching). -/
theorem fetch_failure_propagation (cache : Option (ℚ × RolMap)) (now mp mr mg : ℚ)
    (tn : ℕ) (mode : String)
    (hstale : ∀ t m, cache = some (t, m) → ROLIMONS_CACHE_TTL ≤ now - t) :
    run_scan_io cache now (Except.error ()) mp mr mg tn mode = (cache, Except.error ()) ∧
    ∀ rows, (fetch_rolimons_raw cache now (Except.ok rows)).2 =
      Except.ok (List.map (fun p => (p.1, parse_row p.1 p.2)) rows) := by
  rcases cache with _ | ⟨t, m⟩
  · exact ⟨rfl, fun rows => rfl⟩
  · have hlt : ¬(now - t < ROLIMONS_CACHE_TTL) := not_lt.mpr (hstale t m rfl)
    constructor
    · simp [run_scan_io, fetch_rolimons_raw, rolimons_refresh, hlt]
    · intro rows
      simp [fetch_rolimons_raw, rolimons_refresh, hlt]

/-- C9 (witness for `fetch_failure_propagation`). -/
theorem fetch_failure_propagation_witness :
    run_scan_io (some (0, ([] : RolMap))) 300 (Except.error ()) 200 0 0 10 "score" =
      (some (0, ([] : RolMap)), Except.error ()) :=
  (fetch_failure_propagation (some (0, [])) 300 200 0 0 10 "score" (by
    intro t m hm
    simp only [Option.some.injEq, Prod.mk.injEq] at hm
    obtain ⟨rfl, rfl⟩ := hm
    norm_num [ROLIMONS_CACHE_TTL])).1
